import Mathlib

/-!
# Verification of the seismon deferred-rendering core

Shallow embedding of the frame-rendering core of the seismon game client:
`src/client/render/mod.rs` (graphics state, frame orchestration, texture
upload, light-list encoding) and `src/client/render/ui/mod.rs` (screen-space
transform, UI state, UI command batching).

Machine integers are modelled as `Nat`/`Int` with explicit wrapping
(`% 2^32`) where 32-bit overflow can change a result; `f32` arithmetic is
modelled over `ℚ` (the claims under scrutiny concern the formulas and the
control flow, and both the code-side and the spec-side definitions use the
same exact-arithmetic model).  Fallible paths are modelled with `Option` /
explicit outcome types; a Rust `panic!` / `unwrap()` failure / out-of-bounds
index is an explicit `panicked` / `none` outcome.  Opaque GPU handles
(buffers, bind groups, textures) are modelled as `Nat` tokens: the claims
about them only concern identity across operations.
-/

namespace Seismon

/-- 2-D extent, from `Extent2d { width, height }` in `render/mod.rs`. -/
structure Extent2d where
  width : Nat
  height : Nat
deriving DecidableEq, Repr

/-! ## Screen-space transform (`render/ui/mod.rs`) -/

/-- Reinterpret an integer as a signed 32-bit value (two's-complement wrap),
used to model Rust `i32` arithmetic and `u32 as i32` casts. -/
def wrap32 (x : Int) : Int := (x + 2 ^ 31) % 2 ^ 32 - 2 ^ 31

/-- 4×4 matrix over ℚ, modelling `cgmath::Matrix4<f32>` (entry `mIJ` is
row `I`, column `J`). -/
structure Matrix4 where
  m00 : ℚ
  m01 : ℚ
  m02 : ℚ
  m03 : ℚ
  m10 : ℚ
  m11 : ℚ
  m12 : ℚ
  m13 : ℚ
  m20 : ℚ
  m21 : ℚ
  m22 : ℚ
  m23 : ℚ
  m30 : ℚ
  m31 : ℚ
  m32 : ℚ
  m33 : ℚ
deriving DecidableEq, Repr

/-- `Matrix4::from_translation([tx, ty, tz])` (cgmath): identity with the
translation vector in the last column. -/
def Matrix4.fromTranslation (tx ty tz : ℚ) : Matrix4 :=
  ⟨1, 0, 0, tx,
   0, 1, 0, ty,
   0, 0, 1, tz,
   0, 0, 0, 1⟩

/-- `Matrix4::from_nonuniform_scale(sx, sy, sz)` (cgmath): diagonal scale. -/
def Matrix4.fromNonuniformScale (sx sy sz : ℚ) : Matrix4 :=
  ⟨sx, 0, 0, 0,
   0, sy, 0, 0,
   0, 0, sz, 0,
   0, 0, 0, 1⟩

/-- Matrix product `a * b` (apply `b` first, then `a`). -/
def Matrix4.mul (a b : Matrix4) : Matrix4 :=
  ⟨a.m00 * b.m00 + a.m01 * b.m10 + a.m02 * b.m20 + a.m03 * b.m30,
   a.m00 * b.m01 + a.m01 * b.m11 + a.m02 * b.m21 + a.m03 * b.m31,
   a.m00 * b.m02 + a.m01 * b.m12 + a.m02 * b.m22 + a.m03 * b.m32,
   a.m00 * b.m03 + a.m01 * b.m13 + a.m02 * b.m23 + a.m03 * b.m33,
   a.m10 * b.m00 + a.m11 * b.m10 + a.m12 * b.m20 + a.m13 * b.m30,
   a.m10 * b.m01 + a.m11 * b.m11 + a.m12 * b.m21 + a.m13 * b.m31,
   a.m10 * b.m02 + a.m11 * b.m12 + a.m12 * b.m22 + a.m13 * b.m32,
   a.m10 * b.m03 + a.m11 * b.m13 + a.m12 * b.m23 + a.m13 * b.m33,
   a.m20 * b.m00 + a.m21 * b.m10 + a.m22 * b.m20 + a.m23 * b.m30,
   a.m20 * b.m01 + a.m21 * b.m11 + a.m22 * b.m21 + a.m23 * b.m31,
   a.m20 * b.m02 + a.m21 * b.m12 + a.m22 * b.m22 + a.m23 * b.m32,
   a.m20 * b.m03 + a.m21 * b.m13 + a.m22 * b.m23 + a.m23 * b.m33,
   a.m30 * b.m00 + a.m31 * b.m10 + a.m32 * b.m20 + a.m33 * b.m30,
   a.m30 * b.m01 + a.m31 * b.m11 + a.m32 * b.m21 + a.m33 * b.m31,
   a.m30 * b.m02 + a.m31 * b.m12 + a.m32 * b.m22 + a.m33 * b.m32,
   a.m30 * b.m03 + a.m31 * b.m13 + a.m32 * b.m23 + a.m33 * b.m33⟩

/-- `screen_space_vertex_translate(display_w, display_h, pos_x, pos_y)`
(`ui/mod.rs:32`): `(pos_x * 2 - display_w as i32) as f32 / display_w as f32`
and likewise for y.  The `i32` multiplication, cast and subtraction wrap at
32 bits (release semantics); the divisions are modelled exactly over ℚ. -/
def screen_space_vertex_translate (displayW displayH : Nat) (posX posY : Int) :
    ℚ × ℚ :=
  ⟨(wrap32 (wrap32 (posX * 2) - wrap32 displayW) : ℚ) / (displayW : ℚ),
   (wrap32 (wrap32 (posY * 2) - wrap32 displayH) : ℚ) / (displayH : ℚ)⟩

/-- `screen_space_vertex_scale(display_w, display_h, quad_w, quad_h)`
(`ui/mod.rs:45`): `(quad_w * 2) as f32 / display_w as f32` and likewise for
y; the `u32` multiplication wraps at 32 bits. -/
def screen_space_vertex_scale (displayW displayH quadW quadH : Nat) : ℚ × ℚ :=
  ⟨((quadW * 2) % 2 ^ 32 : Nat) / (displayW : ℚ),
   ((quadH * 2) % 2 ^ 32 : Nat) / (displayH : ℚ)⟩

/-- `screen_space_vertex_transform` (`ui/mod.rs:57`): translation matrix
times nonuniform-scale matrix. -/
def screen_space_vertex_transform (displayW displayH quadW quadH : Nat)
    (posX posY : Int) : Matrix4 :=
  let t := screen_space_vertex_translate displayW displayH posX posY
  let s := screen_space_vertex_scale displayW displayH quadW quadH
  Matrix4.mul (Matrix4.fromTranslation t.1 t.2 0)
    (Matrix4.fromNonuniformScale s.1 s.2 1)

/-- Defined from the spec's words (§6, screen-space transform contract):
normalized-device translation `((2x - w)/w, (2y - h)/h)`, exact integer
arithmetic. -/
def spec_translate (displayW displayH : Nat) (posX posY : Int) : ℚ × ℚ :=
  ⟨((2 * posX - displayW : Int) : ℚ) / (displayW : ℚ),
   ((2 * posY - displayH : Int) : ℚ) / (displayH : ℚ)⟩

/-- Defined from the spec's words (§6): scale `(2*qw/w, 2*qh/h)`, exact. -/
def spec_scale (displayW displayH quadW quadH : Nat) : ℚ × ℚ :=
  ⟨(2 * quadW : Nat) / (displayW : ℚ), (2 * quadH : Nat) / (displayH : ℚ)⟩

/-- Defined from the spec's words (§6): the composed transform is
translate∘scale applied in that order. -/
def spec_transform (displayW displayH quadW quadH : Nat) (posX posY : Int) :
    Matrix4 :=
  let t := spec_translate displayW displayH posX posY
  let s := spec_scale displayW displayH quadW quadH
  Matrix4.mul (Matrix4.fromTranslation t.1 t.2 0)
    (Matrix4.fromNonuniformScale s.1 s.2 1)

/-! ## UI state and UI renderer (`render/ui/mod.rs`, `render/mod.rs`)

`Console` and `Menu` carry no data relevant to the claims; they are modelled
as opaque tokens.  HUD payloads (stats, timers, pickup flags) are likewise
irrelevant to the claims and are compressed to the variant tag plus the
console reference the source stores in them. -/

/-- Opaque token for `common::console::Console`. -/
structure Console where
  id : Nat
deriving DecidableEq, Repr

/-- Opaque token for `client::menu::Menu`. -/
structure Menu where
  id : Nat
deriving DecidableEq, Repr

/-- `client::input::InputFocus`, the tri-state focus value; its three
variants `Game`/`Console`/`Menu` are the ones matched in `render/mod.rs`. -/
inductive InputFocus where
  | game
  | console
  | menu
deriving DecidableEq, Repr

/-- `UiOverlay` (`ui/mod.rs:77`): `Menu(&Menu) | Console(&Console)`. -/
inductive UiOverlay where
  | menu (m : Menu)
  | console (c : Console)
deriving DecidableEq, Repr

/-- `HudState` (`ui/hud.rs`, constructed in `render/mod.rs:1071-1087`):
`Intermission { kind, completion_duration, stats, console }` or
`InGame { items, item_pickup_time, stats, face_anim_time, console }`;
payloads other than the console reference are compressed. -/
inductive HudState where
  | intermission (console : Option Console)
  | inGame (console : Option Console)
deriving DecidableEq, Repr

/-- `UiState` (`ui/mod.rs:82`): `Title { overlay }` or
`InGame { hud, overlay }`. -/
inductive UiState where
  | title (overlay : UiOverlay)
  | inGame (hud : HudState) (overlay : Option UiOverlay)
deriving DecidableEq, Repr

/-- The overlay selection for the `UiState::InGame` arm built in
`ClientRenderer::run` (`render/mod.rs:1089-1096`): a match on
`(focus, console, menu)` in source order. -/
def selectOverlayInGame (focus : InputFocus) (console : Option Console)
    (menu : Option Menu) : Option UiOverlay :=
  match focus, console, menu with
  | .game, _, _ => none
  | .console, some c, _ => some (.console c)
  | .menu, _, some m => some (.menu m)
  | _, _, _ => none

/-- Opaque quad draw command (`QuadRendererCommand`); payload irrelevant to
the claims. -/
structure Quad where
  id : Nat
deriving DecidableEq, Repr

/-- Opaque glyph draw command (`GlyphRendererCommand`). -/
structure Glyph where
  id : Nat
deriving DecidableEq, Repr

/-- The GPU-visible actions of `UiRenderer::render_pass`, in issue order. -/
inductive UiEvent where
  | genHud
  | genMenu
  | genConsole (proportion : ℚ)
  | updateQuadUniforms (quads : List Quad)
  | drawQuads (quads : List Quad)
  | drawGlyphs (glyphs : List Glyph)
deriving DecidableEq, Repr

/-- Is the event one of the two batched draw calls? -/
def UiEvent.isDraw : UiEvent → Bool
  | .drawQuads _ => true
  | .drawGlyphs _ => true
  | _ => false

/-- The command-generating sub-renderers (`ConsoleRenderer`,
`MenuRenderer`, `HudRenderer` — their bodies live outside the excerpt);
`render_pass` only calls them to append commands, so they are parameters
of the model.  Each returns the quad and glyph commands it appends. -/
structure UiGenerators where
  hudGen : HudState → ℚ → List Quad × List Glyph
  menuGen : Menu → ℚ → List Quad × List Glyph
  consoleGen : Console → ℚ → ℚ → List Quad × List Glyph

/-- `UiRenderer::render_pass` (`ui/mod.rs:130-181`): split the UI state into
`(hud_state, overlay)`, let the HUD and then the overlay append commands
(console with a screen proportion of `0.33` over a HUD and `1.0` otherwise),
then update the quad uniforms and issue exactly the two batched draw calls,
quads first, then glyphs.  Returns the final command lists and the ordered
event trace. -/
def UiRenderer.render_pass (gens : UiGenerators) (time : ℚ)
    (uiState : UiState) (quadCommands : List Quad) (glyphCommands : List Glyph) :
    List Quad × List Glyph × List UiEvent :=
  let hudOverlay : Option HudState × Option UiOverlay :=
    match uiState with
    | .title overlay => (none, some overlay)
    | .inGame hud overlay => (some hud, overlay)
  let hudState := hudOverlay.1
  let overlay := hudOverlay.2
  let step1 : List Quad × List Glyph × List UiEvent :=
    match hudState with
    | some hstate =>
        let gen := gens.hudGen hstate time
        (quadCommands ++ gen.1, glyphCommands ++ gen.2, [.genHud])
    | none => (quadCommands, glyphCommands, [])
  let step2 : List Quad × List Glyph × List UiEvent :=
    match overlay with
    | some o =>
        match o with
        | .menu m =>
            let gen := gens.menuGen m time
            (step1.1 ++ gen.1, step1.2.1 ++ gen.2, step1.2.2 ++ [.genMenu])
        | .console c =>
            let proportion : ℚ :=
              match hudState with
              | some _ => 33 / 100
              | none => 1
            let gen := gens.consoleGen c time proportion
            (step1.1 ++ gen.1, step1.2.1 ++ gen.2,
             step1.2.2 ++ [.genConsole proportion])
    | none => step1
  (step2.1, step2.2.1,
   step2.2.2 ++ [.updateQuadUniforms step2.1, .drawQuads step2.1,
                 .drawGlyphs step2.2.1])

/-! ## Point-light list construction (`render/mod.rs:1021-1042`) -/

/-- A dynamic light as yielded by `cl_state.iter_lights()`: world-space
origin and (time-evaluated) radius.  The radius evaluation
`light.radius(cl_state.time())` is opaque to the excerpt, so the radius is
carried already evaluated. -/
structure Light where
  origin : ℚ × ℚ × ℚ
  radius : ℚ
deriving DecidableEq, Repr

/-- `PointLight { origin, radius }` (`world/deferred`): view-space position
and radius, as written into the deferred uniforms. -/
structure PointLight where
  origin : ℚ × ℚ × ℚ
  radius : ℚ
deriving DecidableEq, Repr

/-- The coordinate conversion in the loop body
(`Vector3::new(-light_origin.y, light_origin.z, -light_origin.x)`). -/
def convertOrigin (o : ℚ × ℚ × ℚ) : ℚ × ℚ × ℚ := (-o.2.1, o.2.2, -o.1)

/-- `MAX_LIGHTS` (`client::entity`, outside the excerpt; the spec fixes no
value and the claims do not depend on one — 32, the classic dynamic-light
cap, is used for concrete evaluations while the loop itself is parametric
in the array length). -/
def MAX_LIGHTS : Nat := 32

/-- The light-encoding loop of `ClientRenderer::run`
(`render/mod.rs:1021-1035`), parametric in the camera's view transform
`view` (applied to the converted origin) and in the array length
`maxLights`:

* `lights` starts as an array of `maxLights` zeroed `PointLight`s;
* for each input light, `light_count` is incremented and
  `lights[light_id]` is assigned — with **no** bound check in the source, so
  an index `≥ maxLights` is an out-of-bounds panic, modelled as `none`;
* on success the result is `some (light_count, lights)`. -/
def encodeLights (view : ℚ × ℚ × ℚ → ℚ × ℚ × ℚ) (maxLights : Nat)
    (inputs : List Light) : Option (Nat × List PointLight) :=
  let init : List PointLight := List.replicate maxLights ⟨(0, 0, 0), 0⟩
  inputs.enum.foldl
    (fun acc p =>
      match acc with
      | none => none
      | some (lightCount, lights) =>
          let lightCount := lightCount + 1
          if p.1 < lights.length then
            some (lightCount,
              lights.set p.1 ⟨view (convertOrigin p.2.origin), p.2.radius⟩)
          else none)
    (some (0, init))

/-! ## Frame orchestration (`ClientRenderer::run`, `render/mod.rs:945-1139`) -/

/-- What `ClientRenderer::run` reads from the `RenderState` connection
snapshot for UI derivation: whether an intermission is active (selecting the
`HudState` variant); the remaining payload fields are opaque to the claims. -/
structure ConnSnapshot where
  intermission : Bool
deriving DecidableEq, Repr

/-- Outcome of the `let ui_state = match conn { ... }` expression inside the
final pass (`render/mod.rs:1067-1109`), including the control-flow effects
of its `Title` arm: `unreachable!()` on `(Game, _, _)` is `panicked`, and the
catch-all `return` (which skips UI rendering for the rest of the closure) is
`skippedUi`. -/
inductive UiDerivation where
  | derived (s : UiState)
  | skippedUi
  | panicked
deriving DecidableEq, Repr

/-- The `HudState` built for the In-Game arm (`render/mod.rs:1071-1087`):
`Intermission` when `cl_state.intermission()` is `Some`, `InGame` otherwise;
both carry the console reference. -/
def deriveHudState (conn : ConnSnapshot) (console : Option Console) : HudState :=
  if conn.intermission then .intermission console else .inGame console

/-- The `match conn { Some(..) => UiState::InGame .., None => UiState::Title .. }`
expression (`render/mod.rs:1067-1109`).  Note that in `run` this whole
expression is itself nested inside `if let Some(RenderState { .. }) = conn`,
so its `None` (Title) arm can never execute there. -/
def deriveUiState (conn : Option ConnSnapshot) (focus : InputFocus)
    (console : Option Console) (menu : Option Menu) : UiDerivation :=
  match conn with
  | some c =>
      .derived (.inGame (deriveHudState c console)
        (selectOverlayInGame focus console menu))
  | none =>
      match focus, console, menu with
      | .console, some co, _ => .derived (.title (.console co))
      | .menu, _, some m => .derived (.title (.menu m))
      | .game, _, _ => .panicked
      | _, _, _ => .skippedUi

/-- The per-frame effects of one `ClientRenderer::run` cycle. -/
structure FrameTrace where
  deferredPassBegan : Bool
  deferredDrawRecorded : Bool
  finalPassBegan : Bool
  postprocessDrawRecorded : Bool
  derivedUiState : Option UiState
  uiRenderPassCalled : Bool
  blitPassBegan : Bool
deriving DecidableEq, Repr

/-- The control flow of `ClientRenderer::run` (`render/mod.rs:945-1139`),
abstracted to which passes begin and which draws are recorded:

* the deferred lighting pass runs only when **both** the connection
  (`RenderState`) and the `WorldRenderer` are present
  (`if let (Some(RenderState { .. }), Some(world)) = (conn, renderer)`);
* the final pass always begins; inside it, everything UI-related is guarded
  by `if let Some(RenderState { .. }) = conn`, the post-process draw
  additionally by `renderer.is_some()`;
* the blit pass always runs last.

A `panicked` UI derivation would abort the frame (`none`); the light-list
payload is factored out into `encodeLights` above. -/
def clientRun (conn : Option ConnSnapshot) (renderer : Option Unit)
    (focus : InputFocus) (console : Option Console) (menu : Option Menu) :
    Option FrameTrace :=
  let deferredRan := conn.isSome && renderer.isSome
  match conn with
  | some c =>
      let post := renderer.isSome
      match deriveUiState (some c) focus console menu with
      | .derived s =>
          some
            { deferredPassBegan := deferredRan
              deferredDrawRecorded := deferredRan
              finalPassBegan := true
              postprocessDrawRecorded := post
              derivedUiState := some s
              uiRenderPassCalled := true
              blitPassBegan := true }
      | .skippedUi =>
          some
            { deferredPassBegan := deferredRan
              deferredDrawRecorded := deferredRan
              finalPassBegan := true
              postprocessDrawRecorded := post
              derivedUiState := none
              uiRenderPassCalled := false
              blitPassBegan := true }
      | .panicked => none
  | none =>
      some
        { deferredPassBegan := false
          deferredDrawRecorded := false
          finalPassBegan := true
          postprocessDrawRecorded := false
          derivedUiState := none
          uiRenderPassCalled := false
          blitPassBegan := true }

/-! ## Texture upload (`render/mod.rs:231-364`) -/

/-- The `wgpu::TextureFormat` variants named in `render/mod.rs` (the format
constants and the arms of `TextureData::stride`; `depth32Float` is the depth
attachment format, which falls into the `stride` wildcard). -/
inductive TextureFormat where
  | r8Unorm
  | r8Snorm
  | r8Uint
  | r8Sint
  | rg8Unorm
  | rg8Snorm
  | rg8Uint
  | rg8Sint
  | rgba8Unorm
  | rgba8UnormSrgb
  | bgra8Unorm
  | bgra8UnormSrgb
  | r16Uint
  | r16Sint
  | r16Unorm
  | r16Snorm
  | r16Float
  | rg16Uint
  | rg16Sint
  | rg16Unorm
  | rg16Snorm
  | rg16Float
  | rgba16Uint
  | rgba16Sint
  | rgba16Unorm
  | rgba16Snorm
  | rgba16Float
  | depth32Float
deriving DecidableEq, Repr

/-- `DIFFUSE_TEXTURE_FORMAT` (`render/mod.rs:237`). -/
def DIFFUSE_TEXTURE_FORMAT : TextureFormat := .rgba8UnormSrgb

/-- `FULLBRIGHT_TEXTURE_FORMAT` (`render/mod.rs:238`). -/
def FULLBRIGHT_TEXTURE_FORMAT : TextureFormat := .r8Unorm

/-- `LIGHTMAP_TEXTURE_FORMAT` (`render/mod.rs:239`). -/
def LIGHTMAP_TEXTURE_FORMAT : TextureFormat := .r8Unorm

/-- `TextureData` (`render/mod.rs:321`): diffuse / fullbright / lightmap
payload bytes. -/
inductive TextureData where
  | diffuse (rgba : List Nat)
  | fullbright (data : List Nat)
  | lightmap (data : List Nat)
deriving DecidableEq, Repr

/-- `TextureData::format` (`render/mod.rs:328`). -/
def TextureData.format : TextureData → TextureFormat
  | .diffuse _ => DIFFUSE_TEXTURE_FORMAT
  | .fullbright _ => FULLBRIGHT_TEXTURE_FORMAT
  | .lightmap _ => LIGHTMAP_TEXTURE_FORMAT

/-- `TextureData::stride` (`render/mod.rs:344-359`): bytes per pixel chosen
by the format match; the wildcard arm is `todo!()` (a panic), modelled as
`none`. -/
def TextureData.stride (d : TextureData) : Option Nat :=
  match d.format with
  | .rg8Unorm | .rg8Snorm | .rg8Uint | .rg8Sint => some 2
  | .r8Unorm | .r8Snorm | .r8Uint | .r8Sint => some 1
  | .bgra8Unorm | .bgra8UnormSrgb | .rgba8Unorm | .rgba8UnormSrgb => some 4
  | .r16Uint | .r16Sint | .r16Unorm | .r16Snorm | .r16Float => some 2
  | .rg16Uint | .rg16Sint | .rg16Unorm | .rg16Snorm | .rg16Float => some 4
  | .rgba16Uint | .rgba16Sint | .rgba16Unorm | .rgba16Snorm
  | .rgba16Float => some 8
  | _ => none

/-- The observable parameters of one texture upload issued by
`create_texture` (allocation descriptor extent, `write_texture` layout and
copy extent). -/
structure TextureUpload where
  allocWidth : Nat
  allocHeight : Nat
  bytesPerRow : Option Nat
  copyWidth : Nat
  copyHeight : Nat
deriving DecidableEq, Repr

/-- `create_texture` (`render/mod.rs:264-307`): the texture is allocated at
`width.max(1) × height.max(1)`, while `write_texture` uses
`bytes_per_row = width * data.stride()` (u32 multiplication) and a copy
extent of the **original** `width × height`. -/
def create_texture (width height : Nat) (data : TextureData) : TextureUpload :=
  { allocWidth := max width 1
    allocHeight := max height 1
    bytesPerRow := data.stride.map (fun s => width * s % 2 ^ 32)
    copyWidth := width
    copyHeight := height }

/-! ## Graphics state (`render/mod.rs:431-904`)

GPU handles (buffers, bind groups, textures, views) are `Nat` tokens;
samplers keep the descriptor fields the spec distinguishes them by;
pipeline objects keep the sample count they were last built with, and the
blit pipeline keeps its configured presentation format. -/

/-- Sampler address mode (the two used in `GraphicsState::new`). -/
inductive AddressMode where
  | repeatMode
  | clampToEdge
deriving DecidableEq, Repr

/-- Sampler filter mode. -/
inductive FilterMode where
  | linear
  | nearest
deriving DecidableEq, Repr

/-- A sampler, reduced to the descriptor fields set in
`GraphicsState::new` (`render/mod.rs:529-569`). -/
structure SamplerDesc where
  addressMode : AddressMode
  filter : FilterMode
deriving DecidableEq, Repr

/-- A render pass target: its size and sample count (the two values
`GraphicsState::update` compares), per `target.rs`'s
`size()` / `sample_count()` accessors. -/
@[ext]
structure PassTarget where
  size : Extent2d
  sampleCount : Nat
deriving DecidableEq, Repr

/-- `InitialPassTarget::new(device, size, sample_count)`. -/
def InitialPassTarget.new (size : Extent2d) (sampleCount : Nat) : PassTarget :=
  ⟨size, sampleCount⟩

/-- `DeferredPassTarget::new(device, size, sample_count)`. -/
def DeferredPassTarget.new (size : Extent2d) (sampleCount : Nat) : PassTarget :=
  ⟨size, sampleCount⟩

/-- Modelled from the spec: `FinalPassTarget::new(device, size)` (in
`target.rs`, outside the excerpt) takes no sample count; §4.2 — "Final
target carries one presentation-ready color attachment at sample count 1
(no multisampling past the lighting stage)". -/
def FinalPassTarget.new (size : Extent2d) : PassTarget :=
  ⟨size, 1⟩

/-- A render pipeline object, reduced to the sample count it was last
(re)built with (`Pipeline::rebuild(device, compiler, .., sample_count)`). -/
structure PipelineObj where
  sampleCount : Nat
deriving DecidableEq, Repr

/-- The blit pipeline: its configured presentation format
(`set_format`/`format`, `render/mod.rs:711-717`) and the resolve view it was
last bound to (`BlitPipeline::new/rebuild` take
`final_pass_target.resolve_view()`, not a sample count). -/
structure BlitPipelineObj where
  format : TextureFormat
  resolveOfSize : Extent2d
deriving DecidableEq, Repr

/-- Opaque token for a loaded `Palette`. -/
structure Palette where
  id : Nat
deriving DecidableEq, Repr

/-- Opaque token for a loaded `Wad`. -/
structure Wad where
  id : Nat
deriving DecidableEq, Repr

/-- `GraphicsState` (`render/mod.rs:431-466`), field for field; handle-typed
fields are `Nat` tokens. -/
structure GraphicsState where
  initialPassTarget : PassTarget
  deferredPassTarget : PassTarget
  finalPassTarget : PassTarget
  worldBindGroupLayouts : Nat
  worldBindGroups : Nat
  frameUniformBuffer : Nat
  entityUniformBuffer : Nat
  diffuseSampler : SamplerDesc
  nearestSampler : SamplerDesc
  lightmapSampler : SamplerDesc
  sampleCount : Nat
  aliasPipeline : PipelineObj
  brushPipeline : PipelineObj
  spritePipeline : PipelineObj
  deferredPipeline : PipelineObj
  particlePipeline : PipelineObj
  postprocessPipeline : PipelineObj
  glyphPipeline : PipelineObj
  quadPipeline : PipelineObj
  blitPipeline : BlitPipelineObj
  defaultLightmap : Nat
  defaultLightmapView : Nat
  palette : Palette
  gfxWad : Wad
deriving DecidableEq, Repr

/-- The state assembled by the success path of `GraphicsState::new`
(`render/mod.rs:517-708`): all three pass targets at the requested size (the
final one always at sample count 1), linear-repeat diffuse sampler,
nearest-repeat sampler, linear-clamp lightmap sampler, every pipeline built
at the requested sample count, and the blit pipeline configured with the
final target's format (`FINAL_ATTACHMENT_FORMAT = Rgba8UnormSrgb`) and
resolve view. -/
def mkGraphicsState (size : Extent2d) (sampleCount : Nat) (palette : Palette)
    (gfxWad : Wad) : GraphicsState :=
  { initialPassTarget := InitialPassTarget.new size sampleCount
    deferredPassTarget := DeferredPassTarget.new size sampleCount
    finalPassTarget := FinalPassTarget.new size
    worldBindGroupLayouts := 0
    worldBindGroups := 0
    frameUniformBuffer := 0
    entityUniformBuffer := 0
    diffuseSampler := ⟨.repeatMode, .linear⟩
    nearestSampler := ⟨.repeatMode, .nearest⟩
    lightmapSampler := ⟨.clampToEdge, .linear⟩
    sampleCount := sampleCount
    aliasPipeline := ⟨sampleCount⟩
    brushPipeline := ⟨sampleCount⟩
    spritePipeline := ⟨sampleCount⟩
    deferredPipeline := ⟨sampleCount⟩
    particlePipeline := ⟨sampleCount⟩
    postprocessPipeline := ⟨sampleCount⟩
    glyphPipeline := ⟨sampleCount⟩
    quadPipeline := ⟨sampleCount⟩
    blitPipeline := ⟨.rgba8UnormSrgb, size⟩
    defaultLightmap := 0
    defaultLightmapView := 0
    palette := palette
    gfxWad := gfxWad }

/-- Opaque typed I/O error, as produced by `vfs.open` and propagated by the
`?` operator into the `Result<GraphicsState, Error>` return value. -/
structure VfsError where
  id : Nat
deriving DecidableEq, Repr

/-- The asset-source behaviour `GraphicsState::new` depends on:
whether `Palette::load(&vfs, "gfx/palette.lmp")` succeeds, what
`vfs.open("gfx.wad")` returns, and whether `Wad::load` can parse the opened
file. -/
structure VfsModel where
  paletteLoads : Option Palette
  openGfxWad : Except VfsError Nat
  wadParses : Nat → Option Wad

/-- Outcome of a fallible constructor: a value, a typed error returned to
the caller, or a panic. -/
inductive ConstructOutcome (α : Type) where
  | ok (a : α)
  | err (e : VfsError)
  | panicked
deriving DecidableEq, Repr

/-- `GraphicsState::new` (`render/mod.rs:507-709`), restricted to its
fallible prefix (`render/mod.rs:514-515`):

* `let palette = Palette::load(&vfs, "gfx/palette.lmp");` — `Palette::load`
  returns a bare `Palette` (no `?`, no `Result` at the call site), so a
  missing/corrupt palette cannot reach the caller as an error (modelled from
  the spec's palette failure mode: the failure is a panic inside the load);
* `let gfx_wad = Wad::load(vfs.open("gfx.wad")?).unwrap();` — an open
  failure propagates through `?` as a typed error, while a parse failure
  hits `.unwrap()`, a panic.

On success the rest of the function builds the state (`mkGraphicsState`). -/
def GraphicsState.new (vfs : VfsModel) (size : Extent2d) (sampleCount : Nat) :
    ConstructOutcome GraphicsState :=
  match vfs.paletteLoads with
  | none => .panicked
  | some palette =>
      match vfs.openGfxWad with
      | .error e => .err e
      | .ok file =>
          match vfs.wadParses file with
          | none => .panicked
          | some wad => .ok (mkGraphicsState size sampleCount palette wad)

/-- The GPU-resource effects of one `GraphicsState::update` call: a pipeline
rebuild and/or wholesale pass-target reallocations. -/
inductive UpdateEffect where
  | recreatePipelines (sampleCount : Nat)
  | reallocInitial
  | reallocDeferred
  | reallocFinal
deriving DecidableEq, Repr

/-- `GraphicsState::recreate_pipelines` (`render/mod.rs:772-801`): rebuilds
the alias, brush, sprite, deferred, postprocess, glyph and quad pipelines at
the new sample count (the particle pipeline is *not* rebuilt), and rebuilds
the blit pipeline against the final target's resolve view (its configured
format is untouched). -/
def GraphicsState.recreate_pipelines (g : GraphicsState) (sampleCount : Nat) :
    GraphicsState :=
  { g with
    aliasPipeline := ⟨sampleCount⟩
    brushPipeline := ⟨sampleCount⟩
    spritePipeline := ⟨sampleCount⟩
    deferredPipeline := ⟨sampleCount⟩
    postprocessPipeline := ⟨sampleCount⟩
    glyphPipeline := ⟨sampleCount⟩
    quadPipeline := ⟨sampleCount⟩
    blitPipeline := { g.blitPipeline with resolveOfSize := g.finalPassTarget.size } }

/-- `GraphicsState::update` (`render/mod.rs:737-766`), returning the new
state together with the list of effects performed, in source order:

1. if the stored sample count differs, store it and rebuild the pipelines;
2. if the initial pass target's size or sample count differs, replace it;
3. likewise the deferred pass target;
4. likewise the final pass target (recreated by `FinalPassTarget::new`,
   i.e. always at sample count 1). -/
def GraphicsState.update (g : GraphicsState) (size : Extent2d)
    (sampleCount : Nat) : GraphicsState × List UpdateEffect :=
  let s1 : GraphicsState × List UpdateEffect :=
    if g.sampleCount ≠ sampleCount then
      (GraphicsState.recreate_pipelines { g with sampleCount := sampleCount }
         sampleCount,
       [.recreatePipelines sampleCount])
    else (g, [])
  let s2 : GraphicsState × List UpdateEffect :=
    if s1.1.initialPassTarget.size ≠ size ∨
        s1.1.initialPassTarget.sampleCount ≠ sampleCount then
      ({ s1.1 with initialPassTarget := InitialPassTarget.new size sampleCount },
       s1.2 ++ [.reallocInitial])
    else s1
  let s3 : GraphicsState × List UpdateEffect :=
    if s2.1.deferredPassTarget.size ≠ size ∨
        s2.1.deferredPassTarget.sampleCount ≠ sampleCount then
      ({ s2.1 with deferredPassTarget := DeferredPassTarget.new size sampleCount },
       s2.2 ++ [.reallocDeferred])
    else s2
  if s3.1.finalPassTarget.size ≠ size ∨
      s3.1.finalPassTarget.sampleCount ≠ sampleCount then
    ({ s3.1 with finalPassTarget := FinalPassTarget.new size },
     s3.2 ++ [.reallocFinal])
  else s3

/-! ## Theorems -/

/-- **C6** — For every In-Game frame, the UI overlay selection satisfies:
focus = Console with a console present selects the Console overlay (never
Menu, even when a menu is also present); focus = Menu with a menu present
selects the Menu overlay; focus = Game selects no overlay regardless of
console/menu presence. -/
theorem C6_overlay_precedence (c : Console) (co : Option Console) (m : Menu)
    (mo : Option Menu) :
    selectOverlayInGame .console (some c) mo = some (.console c) ∧
    selectOverlayInGame .menu co (some m) = some (.menu m) ∧
    selectOverlayInGame .game co mo = none := by
  refine ⟨rfl, ?_, rfl⟩
  cases co <;> rfl

/-- **C7** — For every UI state, every set of generators and every sequence
of already-generated commands, `UiRenderer::render_pass` issues exactly two
batched draw calls, in the fixed order quads then glyphs (so a glyph
command over the same region as a quad command is drawn after — above — the
quad, independent of generation order). -/
theorem C7_two_draws_quads_then_glyphs (gens : UiGenerators) (time : ℚ)
    (st : UiState) (q0 : List Quad) (g0 : List Glyph) :
    ((UiRenderer.render_pass gens time st q0 g0).2.2).filter UiEvent.isDraw =
      [.drawQuads (UiRenderer.render_pass gens time st q0 g0).1,
       .drawGlyphs (UiRenderer.render_pass gens time st q0 g0).2.1] := by
  cases st with
  | title o =>
      cases o <;>
        simp [UiRenderer.render_pass, UiEvent.isDraw, List.filter_append]
  | inGame h o =>
      cases o with
      | none =>
          simp [UiRenderer.render_pass, UiEvent.isDraw, List.filter_append]
      | some ov =>
          cases ov <;>
            simp [UiRenderer.render_pass, UiEvent.isDraw, List.filter_append]

/-- Recognizer for the console-generation event. -/
def UiEvent.isGenConsole : UiEvent → Bool
  | .genConsole _ => true
  | _ => false

/-- **C9** — Whenever the console overlay is rendered, the screen-proportion
parameter passed to the console renderer is exactly `1` on the title screen
(no HUD state) and `0.33 < 1` when overlaid on an active HUD (In-Game). -/
theorem C9_console_proportion (gens : UiGenerators) (time : ℚ) (c : Console)
    (hud : HudState) (q0 : List Quad) (g0 : List Glyph) :
    ((UiRenderer.render_pass gens time (.title (.console c)) q0 g0).2.2).filter
        UiEvent.isGenConsole = [.genConsole 1] ∧
    ((UiRenderer.render_pass gens time (.inGame hud (some (.console c)))
        q0 g0).2.2).filter UiEvent.isGenConsole = [.genConsole (33 / 100)] ∧
    (33 : ℚ) / 100 < 1 := by
  refine ⟨?_, ?_, by norm_num⟩ <;>
    simp [UiRenderer.render_pass, UiEvent.isGenConsole, List.filter_append]

/-- **C8** — Every texture upload uses a byte stride of 1 byte/pixel for the
single-channel (fullbright/lightmap, `R8Unorm`) formats and 4 bytes/pixel
for the RGBA (diffuse, `Rgba8UnormSrgb`) format in its `bytes_per_row`; the
allocation clamps a zero width/height to at least 1×1, while the copy region
keeps the original (possibly zero) width and height. -/
theorem C8_texture_upload (w h : Nat) (b : List Nat) (d : TextureData) :
    (create_texture w h (.fullbright b)).bytesPerRow = some (w * 1 % 2 ^ 32) ∧
    (create_texture w h (.lightmap b)).bytesPerRow = some (w * 1 % 2 ^ 32) ∧
    (create_texture w h (.diffuse b)).bytesPerRow = some (w * 4 % 2 ^ 32) ∧
    (create_texture w h d).allocWidth = max w 1 ∧
    (create_texture w h d).allocHeight = max h 1 ∧
    (create_texture 0 h d).allocWidth = 1 ∧
    (create_texture w 0 d).allocHeight = 1 ∧
    (create_texture w h d).copyWidth = w ∧
    (create_texture w h d).copyHeight = h := by
  refine ⟨rfl, rfl, rfl, rfl, rfl, ?_, ?_, rfl, rfl⟩ <;>
    simp [create_texture]

/-- **C1** (code bug) — The claim says that with more than `MAX_LIGHTS`
input lights exactly `MAX_LIGHTS` are encoded, the excess silently dropped,
and `light_count = MAX_LIGHTS`.  The loop in `ClientRenderer::run` has no
cap: at `MAX_LIGHTS + 1 = 33` input lights the write `lights[light_id]` at
`light_id = MAX_LIGHTS` is out of bounds and the encode panics (modelled as
`none`) instead of producing a truncated list. -/
theorem C1_light_cap_bug :
    encodeLights id MAX_LIGHTS
      (List.replicate (MAX_LIGHTS + 1) ⟨(0, 0, 0), 0⟩) = none := by
  decide

/-- **C2** (code bug) — With no world/connection context the deferred pass
and the post-process draw are indeed skipped and the frame still ends in the
blit pass, but — contrary to the claim — no Title UI state is derived and
`UiRenderer::render_pass` is never invoked: the `UiState::Title` arm sits
inside `if let Some(RenderState { .. }) = conn` and is dead code.  Concrete
frame: no connection, input focus = Console, a console and a menu present. -/
theorem C2_title_ui_bug :
    clientRun none none .console (some ⟨0⟩) (some ⟨0⟩) =
      some
        { deferredPassBegan := false
          deferredDrawRecorded := false
          finalPassBegan := true
          postprocessDrawRecorded := false
          derivedUiState := none
          uiRenderPassCalled := false
          blitPassBegan := true } := rfl

/-- **C3 counterexample** — An asset source whose `gfx.wad` opens but cannot
be parsed makes `GraphicsState::new` panic (`Wad::load(..).unwrap()`), not
return a typed construction error, refuting "returns a typed construction
error and never panics on that path". -/
theorem C3_cex_wad_parse_panics :
    GraphicsState.new ⟨some ⟨0⟩, .ok 7, fun _ => none⟩ ⟨800, 600⟩ 1 =
      .panicked := rfl

/-- **C3 amended** — Only a failure to *open* `gfx.wad` is surfaced as a
typed construction error; a missing/corrupt palette panics inside
`Palette::load` (no error can reach the caller), and a `gfx.wad` that opens
but cannot be parsed panics in `.unwrap()`. -/
theorem C3_construction_errors (size : Extent2d) (sc : Nat) (p : Palette)
    (e : VfsError) (f : Nat) (parse : Nat → Option Wad)
    (openW : Except VfsError Nat) :
    GraphicsState.new ⟨some p, .error e, parse⟩ size sc = .err e ∧
    GraphicsState.new ⟨none, openW, parse⟩ size sc = .panicked ∧
    GraphicsState.new ⟨some p, .ok f, fun _ => none⟩ size sc = .panicked :=
  ⟨rfl, rfl, rfl⟩

/-- **C10** — `GraphicsState::update` leaves every field other than the
sample count, the three pass targets and the pipeline objects unchanged: the
three samplers, the frame and entity uniform buffers, the world bind group
layouts and bind groups, the default lightmap (and its view), the palette,
the gfx wad, and the blit pipeline's configured presentation format are the
same after the call as before it. -/
theorem C10_update_preserves_rest (g : GraphicsState) (size : Extent2d)
    (sc : Nat) :
    ((g.update size sc).1).diffuseSampler = g.diffuseSampler ∧
    ((g.update size sc).1).nearestSampler = g.nearestSampler ∧
    ((g.update size sc).1).lightmapSampler = g.lightmapSampler ∧
    ((g.update size sc).1).frameUniformBuffer = g.frameUniformBuffer ∧
    ((g.update size sc).1).entityUniformBuffer = g.entityUniformBuffer ∧
    ((g.update size sc).1).worldBindGroupLayouts = g.worldBindGroupLayouts ∧
    ((g.update size sc).1).worldBindGroups = g.worldBindGroups ∧
    ((g.update size sc).1).defaultLightmap = g.defaultLightmap ∧
    ((g.update size sc).1).defaultLightmapView = g.defaultLightmapView ∧
    ((g.update size sc).1).palette = g.palette ∧
    ((g.update size sc).1).gfxWad = g.gfxWad ∧
    ((g.update size sc).1).blitPipeline.format = g.blitPipeline.format := by
  unfold GraphicsState.update GraphicsState.recreate_pipelines
  dsimp only
  split_ifs <;> simp

/-- A concrete graphics state as built by `GraphicsState::new` at 800×600
with sample count 2. -/
def g800 : GraphicsState := mkGraphicsState ⟨800, 600⟩ 2 ⟨0⟩ ⟨0⟩

/-- **C4 counterexample** — `update` called twice with identical arguments
(extent 800×600, sample count 2) reallocates the final pass target on the
*second* call as well: the final pass target is always created at sample
count 1, so the `sample_count` comparison fires on every call with
`sample_count ≠ 1`.  This refutes "no pass-target reallocation … on the
second call" for every extent and sample count. -/
theorem C4_cex_not_idempotent_at_2 :
    (((g800.update ⟨800, 600⟩ 2).1).update ⟨800, 600⟩ 2).2 =
      [.reallocFinal] := by
  decide

/-- After `update(size, 1)` the stored sample count is 1 and all three pass
targets are at `size` with sample count 1 (the final target because
`FinalPassTarget::new` always builds at sample count 1). -/
theorem update_at_1_fields (g : GraphicsState) (size : Extent2d) :
    ((g.update size 1).1).sampleCount = 1 ∧
    ((g.update size 1).1).initialPassTarget = ⟨size, 1⟩ ∧
    ((g.update size 1).1).deferredPassTarget = ⟨size, 1⟩ ∧
    ((g.update size 1).1).finalPassTarget = ⟨size, 1⟩ := by
  unfold GraphicsState.update GraphicsState.recreate_pipelines
  dsimp only
  split_ifs <;>
    simp_all [InitialPassTarget.new, DeferredPassTarget.new,
      FinalPassTarget.new] <;>
    (repeat' apply And.intro) <;>
    (apply PassTarget.ext <;> simp_all)

/-- When the stored sample count and all three pass targets already match
the arguments, `update` does nothing: no rebuild, no reallocation, state
returned unchanged. -/
theorem update_noop (g : GraphicsState) (size : Extent2d) (sc : Nat)
    (h1 : g.sampleCount = sc) (h2 : g.initialPassTarget = ⟨size, sc⟩)
    (h3 : g.deferredPassTarget = ⟨size, sc⟩)
    (h4 : g.finalPassTarget.size = size)
    (h5 : g.finalPassTarget.sampleCount = sc) :
    g.update size sc = (g, []) := by
  unfold GraphicsState.update
  simp [h1, h2, h3, h4, h5]

/-- **C4 amended** — `update` is idempotent exactly in the regime the
in-repo callers use (`sample_count = 1`): after one `update(size, 1)`, a
second identical call performs no pass-target reallocation and no pipeline
rebuild and returns the state unchanged.  For `sample_count ≠ 1` the final
pass target (always built at sample count 1) is reallocated on every call. -/
theorem C4_update_idempotent_at_1 (g : GraphicsState) (size : Extent2d) :
    ((g.update size 1).1).update size 1 = ((g.update size 1).1, []) := by
  obtain ⟨h1, h2, h3, h4⟩ := update_at_1_fields g size
  exact update_noop _ _ _ h1 h2 h3 (by rw [h4]) (by rw [h4])

/-- `wrap32` is the identity on the `i32` range `[-2^31, 2^31)`. -/
theorem wrap32_eq_of_range (x : Int) (h1 : -2 ^ 31 ≤ x) (h2 : x < 2 ^ 31) :
    wrap32 x = x := by
  unfold wrap32
  have hp : ((2 : Int) ^ 32) = 2 ^ 31 + 2 ^ 31 := by norm_num
  rw [Int.emod_eq_of_lt (by linarith) (by linarith)]
  ring

/-- **C5 counterexample** — At extent (1,1), quad size (1,1) and pixel
origin `(2^30 + 2, 0)` the source's `i32` arithmetic wraps
(`pos_x * 2` overflows), so the computed transform differs from the
spec's exact formula: the claim's universal "for every … integer pixel
origin (x, y) … bit-exactly" is false. -/
theorem C5_cex_overflow :
    screen_space_vertex_transform 1 1 1 1 (2 ^ 30 + 2) 0 ≠
      spec_transform 1 1 1 1 (2 ^ 30 + 2) 0 := by
  intro h
  have h03 := congrArg Matrix4.m03 h
  simp only [screen_space_vertex_transform, spec_transform,
    screen_space_vertex_translate, spec_translate, screen_space_vertex_scale,
    spec_scale, Matrix4.mul, Matrix4.fromTranslation,
    Matrix4.fromNonuniformScale, wrap32] at h03
  norm_num at h03

/-- **C5 amended** — In the overflow-free regime (extent components in
`[1, 2^31)`, quad size components below `2^31`, origin components in
`[-2^30, 2^30)` with `2x - w, 2y - h ≥ -2^31`), the screen-space transform
computed by the source equals, exactly, the composition translate∘scale of
the spec's translation `((2x - w)/w, (2y - h)/h)` and scale
`(2qw/w, 2qh/h)`. -/
theorem C5_transform_eq_spec (dw dh qw qh : Nat) (px py : Int)
    (hdw1 : 1 ≤ dw) (hdw2 : dw < 2 ^ 31) (hdh1 : 1 ≤ dh) (hdh2 : dh < 2 ^ 31)
    (hqw : qw < 2 ^ 31) (hqh : qh < 2 ^ 31)
    (hpx1 : -2 ^ 30 ≤ px) (hpx2 : px < 2 ^ 30)
    (hpy1 : -2 ^ 30 ≤ py) (hpy2 : py < 2 ^ 30)
    (hlx : -2 ^ 31 ≤ 2 * px - (dw : Int))
    (hly : -2 ^ 31 ≤ 2 * py - (dh : Int)) :
    screen_space_vertex_transform dw dh qw qh px py =
      spec_transform dw dh qw qh px py := by
  have hdwI : (0 : Int) ≤ (dw : Int) := Int.ofNat_nonneg dw
  have hdwI2 : (dw : Int) < 2 ^ 31 := by exact_mod_cast hdw2
  have hdhI : (0 : Int) ≤ (dh : Int) := Int.ofNat_nonneg dh
  have hdhI2 : (dh : Int) < 2 ^ 31 := by exact_mod_cast hdh2
  have hdwI1 : (1 : Int) ≤ (dw : Int) := by exact_mod_cast hdw1
  have hdhI1 : (1 : Int) ≤ (dh : Int) := by exact_mod_cast hdh1
  have ex : wrap32 (wrap32 (px * 2) - wrap32 (dw : Int)) = 2 * px - dw := by
    rw [wrap32_eq_of_range (px * 2) (by linarith) (by linarith),
      wrap32_eq_of_range (dw : Int) (by linarith) hdwI2,
      wrap32_eq_of_range (px * 2 - dw) (by linarith) (by linarith)]
    ring
  have ey : wrap32 (wrap32 (py * 2) - wrap32 (dh : Int)) = 2 * py - dh := by
    rw [wrap32_eq_of_range (py * 2) (by linarith) (by linarith),
      wrap32_eq_of_range (dh : Int) (by linarith) hdhI2,
      wrap32_eq_of_range (py * 2 - dh) (by linarith) (by linarith)]
    ring
  have ht : screen_space_vertex_translate dw dh px py =
      spec_translate dw dh px py := by
    unfold screen_space_vertex_translate spec_translate
    rw [ex, ey]
  have hs : screen_space_vertex_scale dw dh qw qh =
      spec_scale dw dh qw qh := by
    unfold screen_space_vertex_scale spec_scale
    rw [Nat.mod_eq_of_lt (by omega), Nat.mod_eq_of_lt (by omega),
      Nat.mul_comm qw 2, Nat.mul_comm qh 2]
  unfold screen_space_vertex_transform spec_transform
  rw [ht, hs]

/-- **C5 witness** — The spec's own example: extent (1920, 1080), origin
(0, 0), size (100, 50) meets the overflow-free bounds; the transform equals
the spec composition there, with translation `(-1, -1)` and scale
`(200/1920, 100/1080)` by the literal formula. -/
theorem C5_transform_eq_spec_witness :
    screen_space_vertex_transform 1920 1080 100 50 0 0 =
      spec_transform 1920 1080 100 50 0 0 ∧
    spec_translate 1920 1080 0 0 = (-1, -1) ∧
    spec_scale 1920 1080 100 50 = (200 / 1920, 100 / 1080) :=
  ⟨C5_transform_eq_spec 1920 1080 100 50 0 0 (by decide) (by decide)
      (by decide) (by decide) (by decide) (by decide) (by decide) (by decide)
      (by decide) (by decide) (by decide) (by decide),
   by simp only [spec_translate, Prod.mk.injEq]; norm_num,
   by simp only [spec_scale, Prod.mk.injEq]; norm_num⟩

end Seismon
